import Mathlib

/-!
Shallow embedding of the core processing module of the Leo ROI Zoom Tool
(src/roi_zoom_tool_v2.py): the ROI locator (find_roi_position), the layout
computation and orchestration in create_zoom_figure, the dashed guide-line
renderer (draw_dashed_line), the scale-bar renderer (draw_scale_bar /
draw_single_scale_bar) and the watermark compositor (draw_watermark).

Machine floats of the source are modelled as exact rationals; pixel-level
operations (cv2.matchTemplate, PIL drawing) are abstracted: the correlation
maximum returned by matchTemplate/minMaxLoc for a given candidate scale is a
parameter function, and drawing calls are modelled by the geometry they
produce (positions, lengths, label strings), not by pixel values.
-/

/-- Python `int()` applied to a rational: truncation toward zero. -/
def pyTrunc (q : ℚ) : ℤ :=
  if 0 ≤ q then ⌊q⌋ else -⌊-q⌋

/-- Python `round`-half-to-even of a rational, as used by the `:.0f` and
`:.1f` format specifiers (after scaling by a power of ten). -/
def pyRoundHalfEven (q : ℚ) : ℤ :=
  let f : ℤ := ⌊q⌋
  let r : ℚ := q - f
  if r < 1/2 then f
  else if 1/2 < r then f + 1
  else if f % 2 = 0 then f else f + 1

/-- The four placements of the zoom image relative to the panorama
(the `zoom_position` string argument of create_zoom_figure). -/
inductive Direction where
  | right
  | left
  | bottom
  | top
deriving DecidableEq, Repr

/-- Result of the canvas-size / anchor computation in create_zoom_figure
(src/roi_zoom_tool_v2.py lines 393-412). -/
structure Layout where
  canvas_w : ℕ
  canvas_h : ℕ
  pano_pos : ℕ × ℕ
  zoom_pos : ℕ × ℕ
deriving DecidableEq, Repr

/-- The layout block of create_zoom_figure (lines 393-412), factored as a
function of the two image sizes, the direction, the padding and the border
margin (the caller computes margin = max(box_thickness, zoom_box_thickness) + 5).
All quantities are nonnegative integers and `//` is floor division. -/
def computeLayout (dir : Direction) (pano_w pano_h zoom_w zoom_h padding margin : ℕ) :
    Layout :=
  match dir with
  | .right =>
      { canvas_w := margin + pano_w + padding + zoom_w + margin
        canvas_h := margin + max pano_h zoom_h + margin
        pano_pos := (margin, margin + (max pano_h zoom_h - pano_h) / 2)
        zoom_pos := (margin + pano_w + padding, margin + (max pano_h zoom_h - zoom_h) / 2) }
  | .left =>
      { canvas_w := margin + zoom_w + padding + pano_w + margin
        canvas_h := margin + max pano_h zoom_h + margin
        pano_pos := (margin + zoom_w + padding, margin + (max pano_h zoom_h - pano_h) / 2)
        zoom_pos := (margin, margin + (max pano_h zoom_h - zoom_h) / 2) }
  | .bottom =>
      { canvas_w := margin + max pano_w zoom_w + margin
        canvas_h := margin + pano_h + padding + zoom_h + margin
        pano_pos := (margin + (max pano_w zoom_w - pano_w) / 2, margin)
        zoom_pos := (margin + (max pano_w zoom_w - zoom_w) / 2, margin + pano_h + padding) }
  | .top =>
      { canvas_w := margin + max pano_w zoom_w + margin
        canvas_h := margin + zoom_h + padding + pano_h + margin
        pano_pos := (margin + (max pano_w zoom_w - pano_w) / 2, margin + zoom_h + padding)
        zoom_pos := (margin + (max pano_w zoom_w - zoom_w) / 2, margin) }

/-- A placed axis-aligned image rectangle (anchor and size) lies entirely
inside the frame `[margin, canvas_w - margin] x [margin, canvas_h - margin]`. -/
def rectInFrame (L : Layout) (pos : ℕ × ℕ) (w h margin : ℕ) : Prop :=
  margin ≤ pos.1 ∧ pos.1 + w + margin ≤ L.canvas_w ∧
  margin ≤ pos.2 ∧ pos.2 + h + margin ≤ L.canvas_h

/-- Two placed image rectangles (half-open pixel ranges) do not overlap:
they are separated along at least one axis. -/
def rectsDisjoint (p1 : ℕ × ℕ) (w1 h1 : ℕ) (p2 : ℕ × ℕ) (w2 h2 : ℕ) : Prop :=
  p1.1 + w1 ≤ p2.1 ∨ p2.1 + w2 ≤ p1.1 ∨ p1.2 + h1 ≤ p2.2 ∨ p2.2 + h2 ≤ p1.2

/-- Squared Euclidean length of the segment from (x1, y1) to (x2, y2); the
source computes `length = (dx**2 + dy**2) ** 0.5`, whose square this is. -/
def lineLengthSq (x1 y1 x2 y2 : ℚ) : ℚ :=
  (x2 - x1) ^ 2 + (y2 - y1) ^ 2

/-- The while-loop of draw_dashed_line (src/roi_zoom_tool_v2.py lines
109-118), collecting the length of every drawn segment. The loop state is
`current_pos` and the `drawing` flag; each drawn segment has length
`min dash_length (length - current_pos)` (the final segment is clipped) and
`current_pos` then advances by `dash_length`; a skipped segment advances it
by `gap_length`. `fuel` bounds the number of iterations; `none` means the
fuel ran out before the loop condition `current_pos < length` failed, so a
`some` result is exactly the drawn-segment list of the source loop. -/
def dashLoop (length dash_length gap_length : ℚ) :
    ℕ → ℚ → Bool → Option (List ℚ)
  | 0, _, _ => none
  | fuel + 1, current_pos, drawing =>
      if current_pos < length then
        if drawing then
          match dashLoop length dash_length gap_length fuel (current_pos + dash_length) false with
          | some segs => some (min dash_length (length - current_pos) :: segs)
          | none => none
        else
          dashLoop length dash_length gap_length fuel (current_pos + gap_length) true
      else
        some []

/-- Iteration budget for dashLoop: ample when each step advances by at least
one pixel (the tool calls it with integer dash and gap lengths of default
15 and 10). -/
def dashFuel (length : ℚ) : ℕ :=
  2 * (length.num.natAbs / length.den + 2)

/-- Model of draw_dashed_line (lines 93-118): `length` is the Euclidean
length of the segment, passed explicitly since the source obtains it by a
square root (`length ^ 2 = lineLengthSq x1 y1 x2 y2` and `0 ≤ length`
characterize it); on `length == 0` the function returns before forming the
unit direction vector, drawing nothing. The result is the list of drawn
segment lengths. -/
def draw_dashed_line (x1 y1 x2 y2 : ℚ) (dash_length gap_length length : ℚ) :
    Option (List ℚ) :=
  let _ := (x1, y1, x2, y2)
  if length = 0 then some []
  else dashLoop length dash_length gap_length (dashFuel length) 0 true

/-- One-decimal fixed-point rendering of a nonnegative rational, as Python
f-string `:.1f` produces (round half to even at the tenths digit). -/
def fmtOneDecimal (q : ℚ) : String :=
  let t : ℤ := pyRoundHalfEven (q * 10)
  toString (t / 10) ++ "." ++ toString (t % 10)

/-- Integer fixed-point rendering of a nonnegative rational, as Python
f-string `:.0f` produces. -/
def fmtNoDecimal (q : ℚ) : String :=
  toString (pyRoundHalfEven q)

/-- The label text of draw_scale_bar (lines 165-168): millimetres with one
decimal when length_um >= 1000, else integer micrometres. -/
def scaleBarLabel (length_um : ℚ) : String :=
  if 1000 ≤ length_um then fmtOneDecimal (length_um / 1000) ++ " mm"
  else fmtNoDecimal length_um ++ " μm"

/-- The three scale-bar styles accepted by draw_scale_bar. -/
inductive BarStyle where
  | line
  | ends
  | ticks
deriving DecidableEq, Repr

/-- Geometry produced by draw_scale_bar (lines 121-181): the horizontal bar
segment and, when text is shown, the label string with its top-left origin.
`text_w` and `text_h` parametrize the font measurement `draw.textbbox`
(width and height of the rendered label). Tick marks only add vertical
segments at the bar ends and midpoint and do not move the bar or label. -/
structure ScaleBarRender where
  lineStart : ℤ × ℤ
  lineEnd : ℤ × ℤ
  label : Option (String × ℤ × ℤ)
deriving DecidableEq, Repr

/-- Model of draw_scale_bar: the bar runs from (x, y) to (x + length_pixels, y);
with text shown, the label is `scaleBarLabel length_um`, horizontally centered
over the bar (floor division, as Python `//`) and placed `text_gap` pixels
above the bar, additionally above the end-ticks (of height `3 * thickness`)
when the style is not `line`. -/
def draw_scale_bar (x y length_pixels : ℤ) (length_um : ℚ) (thickness : ℤ)
    (show_text : Bool) (style : BarStyle) (text_gap text_w text_h : ℤ) :
    ScaleBarRender :=
  let end_height := thickness * 3
  { lineStart := (x, y)
    lineEnd := (x + length_pixels, y)
    label :=
      if show_text then
        let text := scaleBarLabel length_um
        let text_x := x + Int.fdiv (length_pixels - text_w) 2
        let text_y :=
          if style = .line then y - text_h - text_gap
          else y - end_height - text_h - text_gap
        some (text, text_x, text_y)
      else none }

/-- The five watermark anchor positions of draw_watermark. -/
inductive WatermarkAnchor where
  | bottomRight
  | bottomLeft
  | topRight
  | topLeft
  | center
deriving DecidableEq, Repr

/-- The text-origin computation of draw_watermark (lines 311-329): a fixed
margin of 20 pixels from the chosen canvas corner, offset by the measured
text bounding box (text_w, text_h); the center anchor centers the text box
with floor division. -/
def draw_watermark_origin (anchor : WatermarkAnchor)
    (img_width img_height text_w text_h : ℤ) : ℤ × ℤ :=
  let margin : ℤ := 20
  match anchor with
  | .bottomRight => (img_width - text_w - margin, img_height - text_h - margin)
  | .bottomLeft => (margin, img_height - text_h - margin)
  | .topRight => (img_width - text_w - margin, margin)
  | .topLeft => (margin, margin)
  | .center => (Int.fdiv (img_width - text_w) 2, Int.fdiv (img_height - text_h) 2)

/-- The fixed descending scale list of find_roi_position (line 67). -/
def scales : List ℚ :=
  [1.0, 0.9, 0.8, 0.7, 0.6, 0.5, 0.4, 0.3, 0.25, 0.2, 0.15, 0.1]

/-- Resized template dimension: Python `int(dim * scale)` (line 70-71),
truncation of the exact product (nonnegative here, so a floor). -/
def resizedDim (dim : ℕ) (scale : ℚ) : ℕ :=
  (pyTrunc (dim * scale)).toNat

/-- The template-validity filter of find_roi_position (lines 73-76): the
resized template must be strictly smaller than the panorama in both
dimensions and at least 10 pixels in both dimensions. -/
def validTemplate (pano_w pano_h zoom_w zoom_h : ℕ) (scale : ℚ) : Bool :=
  let new_w := resizedDim zoom_w scale
  let new_h := resizedDim zoom_h scale
  decide (new_w < pano_w) && decide (new_h < pano_h) &&
  decide (10 ≤ new_w) && decide (10 ≤ new_h)

/-- The scale loop of find_roi_position (lines 69-84). The normalized
cross-correlation maximum that cv2.matchTemplate followed by cv2.minMaxLoc
would report for the template at a given scale is abstracted as `conf`, and
the arg-max location as `loc`; both are functions of the scale since the
scale determines the resized template. The accumulator carries
(best_match, best_confidence), updated only when the new maximum strictly
exceeds the best confidence so far (initially -1). -/
def findBest (pano_w pano_h zoom_w zoom_h : ℕ) (conf : ℚ → ℚ) (loc : ℚ → ℕ × ℕ) :
    List ℚ → Option (ℕ × ℕ × ℕ × ℕ × ℚ) × ℚ → Option (ℕ × ℕ × ℕ × ℕ × ℚ) × ℚ
  | [], acc => acc
  | scale :: rest, (best_match, best_confidence) =>
      if validTemplate pano_w pano_h zoom_w zoom_h scale then
        let max_val := conf scale
        if best_confidence < max_val then
          findBest pano_w pano_h zoom_w zoom_h conf loc rest
            (some ((loc scale).1, (loc scale).2,
                   resizedDim zoom_w scale, resizedDim zoom_h scale, scale),
             max_val)
        else
          findBest pano_w pano_h zoom_w zoom_h conf loc rest (best_match, best_confidence)
      else
        findBest pano_w pano_h zoom_w zoom_h conf loc rest (best_match, best_confidence)

/-- Error taxonomy of the locate step: a source image that fails to decode,
or no usable match (the ValueError raised at line 87). -/
inductive RoiError where
  | ImageReadError
  | NoMatchFound
deriving DecidableEq, Repr

/-- The match result returned by find_roi_position (line 90): ROI origin and
size in panorama pixels plus the best confidence. -/
structure MatchResult where
  x : ℕ
  y : ℕ
  w : ℕ
  h : ℕ
  confidence : ℚ
deriving DecidableEq, Repr

/-- Model of find_roi_position (lines 49-90) after both images decoded
successfully: run the scale loop over the fixed list starting from
(None, -1) and fail with NoMatchFound when best_match is still None. -/
def find_roi_position (pano_w pano_h zoom_w zoom_h : ℕ)
    (conf : ℚ → ℚ) (loc : ℚ → ℕ × ℕ) : Except RoiError MatchResult :=
  match findBest pano_w pano_h zoom_w zoom_h conf loc scales (none, -1) with
  | (none, _) => .error .NoMatchFound
  | (some (x, y, w, h, _), best_confidence) => .ok ⟨x, y, w, h, best_confidence⟩

/-- Which placed image a scale bar or annotation targets. -/
inductive TargetImage where
  | panorama
  | zoom
deriving DecidableEq, Repr

/-- Which horizontal corner of the target a scale bar is anchored to. -/
inductive Corner where
  | left
  | right
deriving DecidableEq, Repr

/-- Scale-bar configuration consumed by draw_single_scale_bar (lines
478-510), with the dictionary defaults already resolved. Color, font size
and font family affect only pixel values and are not modelled. -/
structure ScaleBarConfig where
  enabled : Bool := false
  position : TargetImage := .zoom
  corner : Corner := .right
  offset_x : ℤ := 30
  offset_y : ℤ := 30
  length_um : ℚ := 100
  pixels_per_um : ℚ := 1
  thickness : ℤ := 5
  style : BarStyle := .ends
  text_gap : ℤ := 5
deriving DecidableEq, Repr

/-- The pixel length of a configured scale bar: Python
`int(sb_length_um * sb_pixels_per_um)` (line 494), a truncation. -/
def scaleBarLengthPixels (length_um pixels_per_um : ℚ) : ℤ :=
  pyTrunc (length_um * pixels_per_um)

/-- Model of the inner draw_single_scale_bar of create_zoom_figure (lines
478-510): `none` when the config is absent or not enabled, otherwise the
anchor (sb_x, sb_y) together with the pixel length handed to draw_scale_bar.
The bar is bottom-anchored at the target image (sb_y = target bottom minus
offset_y) and horizontally anchored at the chosen corner. -/
def draw_single_scale_bar (L : Layout) (pano_w pano_h zoom_w zoom_h : ℕ)
    (cfg : ScaleBarConfig) : Option (ℤ × ℤ × ℤ) :=
  if cfg.enabled then
    let sb_length_pixels := scaleBarLengthPixels cfg.length_um cfg.pixels_per_um
    let sb_x : ℤ :=
      match cfg.position, cfg.corner with
      | .panorama, .left => L.pano_pos.1 + cfg.offset_x
      | .panorama, .right => L.pano_pos.1 + pano_w - sb_length_pixels - cfg.offset_x
      | .zoom, .left => L.zoom_pos.1 + cfg.offset_x
      | .zoom, .right => L.zoom_pos.1 + zoom_w - sb_length_pixels - cfg.offset_x
    let sb_y : ℤ :=
      match cfg.position with
      | .panorama => L.pano_pos.2 + pano_h - cfg.offset_y
      | .zoom => L.zoom_pos.2 + zoom_h - cfg.offset_y
    some (sb_x, sb_y, sb_length_pixels)
  else none

/-- Watermark configuration consumed by create_zoom_figure (lines 545-553),
with the dictionary defaults already resolved. -/
structure WatermarkConfig where
  enabled : Bool := false
  text : String := ""
  position : WatermarkAnchor := .bottomRight
  opacity : ℤ := 128
  font_size : ℤ := 24
deriving DecidableEq, Repr

/-- Error taxonomy of the full render pipeline as the specification states
it; the source raises only read failures and the no-match ValueError, and
contains no validation step, so ValidationError is never produced. -/
inductive RenderError where
  | ImageReadError
  | NoMatchFound
  | ValidationError
deriving DecidableEq, Repr

/-- The metadata record returned by create_zoom_figure (lines 559-567),
plus the low-confidence warning flag modelling the print at lines 374-375
(the warning is non-fatal: execution continues either way). -/
structure CompositeResult where
  roi_x : ℤ
  roi_y : ℤ
  roi_w : ℕ
  roi_h : ℕ
  confidence : ℚ
  pano_pos : ℕ × ℕ
  zoom_pos : ℕ × ℕ
  lowConfWarning : Bool
deriving DecidableEq, Repr

/-- Boolean success test for an Except value. -/
def exceptOk {ε α : Type} : Except ε α → Bool
  | .ok _ => true
  | .error _ => false

/-- Model of create_zoom_figure (lines 343-567) over decoded image sizes:
locate the ROI (propagating its failure), apply the manual roi_offset, set
the low-confidence warning flag when confidence < 0.5, resize the zoom
image by zoom_scale for layout purposes (find_roi_position saw the
original), compute the layout with margin = max(box_thickness,
zoom_box_thickness) + 5, and return the metadata record. The border, guide
line, scale-bar, annotation and watermark drawing steps change only pixel
values, never the returned metadata, and the source performs no validation
of the scale-bar or watermark configurations: no code path produces
ValidationError. -/
def create_zoom_figure (pano_w pano_h zoom_w zoom_h : ℕ)
    (conf : ℚ → ℚ) (loc : ℚ → ℕ × ℕ)
    (box_thickness zoom_box_thickness : ℕ) (zoom_position : Direction)
    (zoom_scale : ℚ) (padding : ℕ) (roi_offset : ℤ × ℤ)
    (scale_bars : List ScaleBarConfig) (watermark : Option WatermarkConfig) :
    Except RenderError CompositeResult :=
  match find_roi_position pano_w pano_h zoom_w zoom_h conf loc with
  | .error .ImageReadError => .error .ImageReadError
  | .error .NoMatchFound => .error .NoMatchFound
  | .ok m =>
      let x : ℤ := (m.x : ℤ) + roi_offset.1
      let y : ℤ := (m.y : ℤ) + roi_offset.2
      let warned : Bool := decide (m.confidence < 1/2)
      let zoom_w2 : ℕ :=
        if zoom_scale = 1 then zoom_w else (pyTrunc (zoom_w * zoom_scale)).toNat
      let zoom_h2 : ℕ :=
        if zoom_scale = 1 then zoom_h else (pyTrunc (zoom_h * zoom_scale)).toNat
      let margin := max box_thickness zoom_box_thickness + 5
      let L := computeLayout zoom_position pano_w pano_h zoom_w2 zoom_h2 padding margin
      let _ := scale_bars.map (draw_single_scale_bar L pano_w pano_h zoom_w2 zoom_h2)
      let _ := watermark
      .ok { roi_x := x, roi_y := y, roi_w := m.w, roi_h := m.h,
            confidence := m.confidence, pano_pos := L.pano_pos,
            zoom_pos := L.zoom_pos, lowConfWarning := warned }

deriving instance DecidableEq for Except

unseal Rat.mul Rat.add Rat.sub Rat.inv Rat.ofScientific

/-- Projection of a render result to its low-confidence warning flag. -/
def renderWarned : Except RenderError CompositeResult → Option Bool
  | .ok r => some r.lowConfWarning
  | .error _ => none

/-- Projection of a render result to its reported confidence. -/
def renderConfidence : Except RenderError CompositeResult → Option ℚ
  | .ok r => some r.confidence
  | .error _ => none

theorem findBest_some_isSome (pw ph zw zh : ℕ) (conf : ℚ → ℚ) (loc : ℚ → ℕ × ℕ)
    (l : List ℚ) (p : ℕ × ℕ × ℕ × ℕ × ℚ) (b : ℚ) :
    (findBest pw ph zw zh conf loc l (some p, b)).1.isSome := by
  induction l generalizing p b with
  | nil => rfl
  | cons s rest ih =>
      simp only [findBest]
      split_ifs with h1 h2
      · exact ih _ _
      · exact ih _ _
      · exact ih _ _

theorem findBest_none_iff (pw ph zw zh : ℕ) (conf : ℚ → ℚ) (loc : ℚ → ℕ × ℕ)
    (l : List ℚ) (b : ℚ) :
    (findBest pw ph zw zh conf loc l (none, b)).1 = none ↔
      ∀ s ∈ l, validTemplate pw ph zw zh s = true → conf s ≤ b := by
  induction l generalizing b with
  | nil => simp [findBest]
  | cons s rest ih =>
      simp only [findBest]
      by_cases hv : validTemplate pw ph zw zh s = true
      · rw [if_pos hv]
        by_cases hc : b < conf s
        · rw [if_pos hc]
          constructor
          · intro h
            have hs := findBest_some_isSome pw ph zw zh conf loc rest
              ((loc s).1, (loc s).2, resizedDim zw s, resizedDim zh s, s) (conf s)
            rw [h] at hs
            simp at hs
          · intro h
            exact absurd hc (not_lt.mpr (h s (List.mem_cons_self s rest) hv))
        · rw [if_neg hc]
          rw [ih]
          constructor
          · intro h t ht hvt
            rcases List.mem_cons.mp ht with rfl | ht2
            · exact not_lt.mp hc
            · exact h t ht2 hvt
          · intro h t ht hvt
            exact h t (List.mem_cons_of_mem s ht) hvt
      · rw [if_neg hv]
        rw [ih]
        constructor
        · intro h t ht hvt
          rcases List.mem_cons.mp ht with rfl | ht2
          · exact absurd hvt hv
          · exact h t ht2 hvt
        · intro h t ht hvt
          exact h t (List.mem_cons_of_mem s ht) hvt

/-- C1 counterexample: with a 50x50 zoom image and a 100x100 panorama, scale
1.0 produces a valid template, yet when every surviving scale's correlation
maximum equals -1 (the lowest value normalized correlation can attain, and
exactly the initial best-confidence sentinel of find_roi_position), the
strict comparison max_val > best_confidence never fires and the function
still fails with NoMatchFound, contradicting the claimed equivalence. -/
theorem find_roi_no_match_counterexample :
    validTemplate 100 100 50 50 1 = true ∧ (1 : ℚ) ∈ scales ∧
    find_roi_position 100 100 50 50 (fun _ => -1) (fun _ => (0, 0)) =
      .error .NoMatchFound := by
  refine ⟨by decide, by decide, by decide⟩

/-- C1 amended: find_roi_position fails with NoMatchFound if and only if
every scale in the fixed list either fails the template-validity filter or
has correlation maximum at most -1 (the initial best-confidence value);
whenever at least one scale survives the filter with correlation maximum
strictly greater than -1, a MatchResult is returned rather than a failure. -/
theorem find_roi_no_match_iff :
    ∀ (pw ph zw zh : ℕ) (conf : ℚ → ℚ) (loc : ℚ → ℕ × ℕ),
    (find_roi_position pw ph zw zh conf loc = .error .NoMatchFound ↔
      ∀ s ∈ scales, validTemplate pw ph zw zh s = true → conf s ≤ -1) ∧
    (∀ s ∈ scales, validTemplate pw ph zw zh s = true → -1 < conf s →
      ∃ m : MatchResult, find_roi_position pw ph zw zh conf loc = .ok m) := by
  intro pw ph zw zh conf loc
  constructor
  · constructor
    · intro herr
      rw [← findBest_none_iff pw ph zw zh conf loc scales (-1)]
      unfold find_roi_position at herr
      rcases hfb : findBest pw ph zw zh conf loc scales (none, -1) with ⟨bm, bc⟩
      rw [hfb] at herr
      cases bm with
      | none => rfl
      | some p =>
          rcases p with ⟨px, py, pwd, phd, psc⟩
          simp at herr
    · intro hall
      have h1 : (findBest pw ph zw zh conf loc scales (none, -1)).1 = none :=
        (findBest_none_iff pw ph zw zh conf loc scales (-1)).mpr hall
      unfold find_roi_position
      rcases hfb : findBest pw ph zw zh conf loc scales (none, -1) with ⟨bm, bc⟩
      rw [hfb] at h1
      cases bm with
      | none => rfl
      | some p => simp at h1
  · intro s hs hv hc
    unfold find_roi_position
    rcases hfb : findBest pw ph zw zh conf loc scales (none, -1) with ⟨bm, bc⟩
    cases bm with
    | none =>
        exfalso
        have h1 : (findBest pw ph zw zh conf loc scales (none, -1)).1 = none := by
          rw [hfb]
        have h2 := (findBest_none_iff pw ph zw zh conf loc scales (-1)).mp h1 s hs hv
        exact absurd hc (not_lt.mpr h2)
    | some p =>
        rcases p with ⟨px, py, pwd, phd, psc⟩
        exact ⟨⟨px, py, pwd, phd, bc⟩, rfl⟩

/-- C1 amended, instantiated: a 50x50 zoom in a 100x100 panorama with all
correlation maxima equal to 0.3 yields a MatchResult. -/
theorem find_roi_no_match_iff_witness :
    exceptOk (find_roi_position 100 100 50 50 (fun _ => 3/10) (fun _ => (7, 9))) = true := by
  obtain ⟨m, hm⟩ :=
    (find_roi_no_match_iff 100 100 50 50 (fun _ => 3/10) (fun _ => (7, 9))).2
      1 (by decide) (by decide) (by norm_num)
  rw [hm]
  rfl

/-- C2: for direction right the layout satisfies the stated exact integer
formulas, and the concrete instance pano 200x100, zoom 80x80, padding 20,
margin 8 gives canvas (316, 116), pano at (8, 8), zoom at (228, 18). -/
theorem layout_right_formulas :
    (∀ pano_w pano_h zoom_w zoom_h padding margin : ℕ,
      (computeLayout .right pano_w pano_h zoom_w zoom_h padding margin).canvas_w =
        margin + pano_w + padding + zoom_w + margin ∧
      (computeLayout .right pano_w pano_h zoom_w zoom_h padding margin).canvas_h =
        margin + max pano_h zoom_h + margin ∧
      (computeLayout .right pano_w pano_h zoom_w zoom_h padding margin).pano_pos =
        (margin, margin + (max pano_h zoom_h - pano_h) / 2) ∧
      (computeLayout .right pano_w pano_h zoom_w zoom_h padding margin).zoom_pos =
        (margin + pano_w + padding, margin + (max pano_h zoom_h - zoom_h) / 2)) ∧
    computeLayout .right 200 100 80 80 20 8 =
      { canvas_w := 316, canvas_h := 116, pano_pos := (8, 8), zoom_pos := (228, 18) } := by
  exact ⟨fun pano_w pano_h zoom_w zoom_h padding margin => ⟨rfl, rfl, rfl, rfl⟩, by decide⟩

/-- C7: for every direction, positive image sizes and any padding and margin,
both placed images lie inside the margin frame and never overlap. -/
theorem layout_in_frame_and_disjoint (dir : Direction)
    (pano_w pano_h zoom_w zoom_h padding margin : ℕ)
    (hpw : 0 < pano_w) (hph : 0 < pano_h) (hzw : 0 < zoom_w) (hzh : 0 < zoom_h) :
    rectInFrame (computeLayout dir pano_w pano_h zoom_w zoom_h padding margin)
      (computeLayout dir pano_w pano_h zoom_w zoom_h padding margin).pano_pos
      pano_w pano_h margin ∧
    rectInFrame (computeLayout dir pano_w pano_h zoom_w zoom_h padding margin)
      (computeLayout dir pano_w pano_h zoom_w zoom_h padding margin).zoom_pos
      zoom_w zoom_h margin ∧
    rectsDisjoint (computeLayout dir pano_w pano_h zoom_w zoom_h padding margin).pano_pos
      pano_w pano_h
      (computeLayout dir pano_w pano_h zoom_w zoom_h padding margin).zoom_pos
      zoom_w zoom_h := by
  cases dir <;> simp only [computeLayout, rectInFrame, rectsDisjoint] <;> omega

/-- C7 instantiated at the layout-determinism example. -/
theorem layout_in_frame_and_disjoint_witness :
    rectInFrame (computeLayout .right 200 100 80 80 20 8)
      (computeLayout .right 200 100 80 80 20 8).pano_pos 200 100 8 ∧
    rectInFrame (computeLayout .right 200 100 80 80 20 8)
      (computeLayout .right 200 100 80 80 20 8).zoom_pos 80 80 8 ∧
    rectsDisjoint (computeLayout .right 200 100 80 80 20 8).pano_pos 200 100
      (computeLayout .right 200 100 80 80 20 8).zoom_pos 80 80 :=
  layout_in_frame_and_disjoint .right 200 100 80 80 20 8
    (by decide) (by decide) (by decide) (by decide)

/-- C3 counterexample: on the horizontal line from (0,0) to (100,0) with
dash 15 and gap 10 the drawn segments are four dashes of length 15, whose
sum 60 is strictly below the claimed lower bound 100 - 15 = 85. -/
theorem dashed_sum_counterexample :
    draw_dashed_line 0 0 100 0 15 10 100 = some [15, 15, 15, 15] ∧
    ([15, 15, 15, 15] : List ℚ).sum = 60 ∧
    ¬((100 : ℚ) - 15 ≤ 60) := by
  refine ⟨by decide, by norm_num, by norm_num⟩

/-- C3 amended: for every horizontal line of length 100 drawn with
dash_length 15 and gap_length 10, the drawn segments are four dashes of
length 15; their sum is 60, which is at most 100, and no single drawn
segment is longer than dash_length (the final segment is clipped so it does
not overshoot the endpoint). -/
theorem dashed_sum_amended :
    ∀ x1 y1 x2 y2 : ℚ,
    draw_dashed_line x1 y1 x2 y2 15 10 100 = some [15, 15, 15, 15] ∧
    ([15, 15, 15, 15] : List ℚ).sum = 60 ∧ (60 : ℚ) ≤ 100 ∧
    ∀ s ∈ ([15, 15, 15, 15] : List ℚ), s ≤ 15 := by
  intro x1 y1 x2 y2
  refine ⟨?_, by norm_num, by norm_num, by decide⟩
  show draw_dashed_line 0 0 100 0 15 10 100 = some [15, 15, 15, 15]
  decide

/-- C10: draw_dashed_line returns, drawing nothing, whenever the start point
equals the end point, and the zero-length guard is exact: the Euclidean
length (characterized by its square) vanishes precisely when the two
endpoints coincide, so the unit-direction division is always guarded. -/
theorem dashed_zero_length_guarded (x1 y1 x2 y2 dash_length gap_length len : ℚ)
    (hsq : len ^ 2 = lineLengthSq x1 y1 x2 y2) (hnn : 0 ≤ len) :
    ((x1, y1) = (x2, y2) →
      draw_dashed_line x1 y1 x2 y2 dash_length gap_length len = some []) ∧
    (len = 0 ↔ (x1, y1) = (x2, y2)) := by
  have hiff : len = 0 ↔ (x1, y1) = (x2, y2) := by
    constructor
    · intro h0
      rw [h0] at hsq
      have h2 : (x2 - x1) ^ 2 + (y2 - y1) ^ 2 = 0 := by
        simpa [lineLengthSq] using hsq.symm
      have hx : x2 - x1 = 0 := by nlinarith [sq_nonneg (x2 - x1), sq_nonneg (y2 - y1)]
      have hy : y2 - y1 = 0 := by nlinarith [sq_nonneg (x2 - x1), sq_nonneg (y2 - y1)]
      have : x1 = x2 := by linarith
      have : y1 = y2 := by linarith
      simp_all
    · intro hpt
      have hx : x1 = x2 := congrArg Prod.fst hpt
      have hy : y1 = y2 := congrArg Prod.snd hpt
      have h2 : len ^ 2 = 0 := by
        rw [hsq]; unfold lineLengthSq; rw [← hx, ← hy]; ring
      exact pow_eq_zero_iff (two_ne_zero) |>.mp h2
  refine ⟨fun hpt => ?_, hiff⟩
  have h0 : len = 0 := hiff.mpr hpt
  unfold draw_dashed_line
  rw [if_pos h0]

/-- C10 instantiated at coincident endpoints (3, 4). -/
theorem dashed_zero_length_guarded_witness :
    (((3 : ℚ), (4 : ℚ)) = ((3 : ℚ), (4 : ℚ)) →
      draw_dashed_line 3 4 3 4 15 10 0 = some []) ∧
    ((0 : ℚ) = 0 ↔ ((3 : ℚ), (4 : ℚ)) = ((3 : ℚ), (4 : ℚ))) :=
  dashed_zero_length_guarded 3 4 3 4 15 10 0 (by norm_num [lineLengthSq]) (by norm_num)

/-- C4 counterexample: the source computes the scale-bar pixel length with
Python int(), a truncation, not round: at length_um 100 and pixels_per_um
0.999 the bar is 99 pixels long while rounding gives 100. -/
theorem scale_bar_length_counterexample :
    scaleBarLengthPixels 100 (999/1000) = 99 ∧
    round ((100 : ℚ) * (999/1000)) = 100 ∧ (99 : ℤ) ≠ 100 := by
  refine ⟨by decide, by decide, by decide⟩

/-- C4 amended: the pixel length of the drawn bar equals the truncation
(the floor, for the nonnegative inputs of a scale bar) of
length_um * pixels_per_um, not its rounding; in particular length_um 100
with pixels_per_um 2.0 yields length_pixels 200, and draw_scale_bar draws
the horizontal bar exactly that many pixels wide. -/
theorem scale_bar_length_trunc (length_um pixels_per_um : ℚ)
    (h1 : 0 ≤ length_um) (h2 : 0 ≤ pixels_per_um) :
    scaleBarLengthPixels length_um pixels_per_um = ⌊length_um * pixels_per_um⌋ ∧
    scaleBarLengthPixels 100 2 = 200 ∧
    ∀ x y lp th gap tw texth : ℤ, ∀ lu : ℚ, ∀ st : BarStyle, ∀ b : Bool,
      (draw_scale_bar x y lp lu th b st gap tw texth).lineEnd.1 -
        (draw_scale_bar x y lp lu th b st gap tw texth).lineStart.1 = lp := by
  refine ⟨?_, by decide, ?_⟩
  · unfold scaleBarLengthPixels pyTrunc
    rw [if_pos (mul_nonneg h1 h2)]
  · intro x y lp th gap tw texth lu st b
    simp [draw_scale_bar]

/-- C4 amended, instantiated at the spec example 100 um at 2 px/um. -/
theorem scale_bar_length_trunc_witness :
    scaleBarLengthPixels 100 2 = ⌊(100 : ℚ) * 2⌋ ∧
    scaleBarLengthPixels 100 2 = 200 ∧
    ∀ x y lp th gap tw texth : ℤ, ∀ lu : ℚ, ∀ st : BarStyle, ∀ b : Bool,
      (draw_scale_bar x y lp lu th b st gap tw texth).lineEnd.1 -
        (draw_scale_bar x y lp lu th b st gap tw texth).lineStart.1 = lp :=
  scale_bar_length_trunc 100 2 (by norm_num) (by norm_num)

theorem pyRoundHalfEven_natCast (n : ℕ) : pyRoundHalfEven (n : ℚ) = (n : ℤ) := by
  unfold pyRoundHalfEven
  rw [Int.floor_natCast]
  norm_num

/-- C8: for a scale bar with text enabled, the label of an integer
micrometre value below 1000 is that integer followed by the micrometre
unit (so 100 gives "100 μm"), the label of 1500 is "1.5 mm" (millimetres
with one decimal), and the label is horizontally centered over the bar and
placed text_gap pixels above it, additionally above the end-ticks of height
3 * thickness when the style is not line. -/
theorem scale_bar_label_spec (n : ℕ) (hn : n < 1000) :
    scaleBarLabel (n : ℚ) = toString n ++ " μm" ∧
    scaleBarLabel 100 = "100 μm" ∧ scaleBarLabel 1500 = "1.5 mm" ∧
    ∀ x y lp th gap tw texth : ℤ, ∀ lu : ℚ, ∀ st : BarStyle,
      (draw_scale_bar x y lp lu th true st gap tw texth).label =
        some (scaleBarLabel lu, x + Int.fdiv (lp - tw) 2,
          if st = .line then y - texth - gap else y - th * 3 - texth - gap) := by
  refine ⟨?_, by decide, by decide, ?_⟩
  · unfold scaleBarLabel
    rw [if_neg ?_]
    · unfold fmtNoDecimal
      rw [pyRoundHalfEven_natCast]
      congr 1
    · push_neg
      exact_mod_cast hn
  · intro x y lp th gap tw texth lu st
    rfl

/-- C8 instantiated at the spec example 100 um. -/
theorem scale_bar_label_spec_witness :
    scaleBarLabel ((100 : ℕ) : ℚ) = toString (100 : ℕ) ++ " μm" ∧
    scaleBarLabel 100 = "100 μm" ∧ scaleBarLabel 1500 = "1.5 mm" ∧
    ∀ x y lp th gap tw texth : ℤ, ∀ lu : ℚ, ∀ st : BarStyle,
      (draw_scale_bar x y lp lu th true st gap tw texth).label =
        some (scaleBarLabel lu, x + Int.fdiv (lp - tw) 2,
          if st = .line then y - texth - gap else y - th * 3 - texth - gap) :=
  scale_bar_label_spec 100 (by norm_num)

/-- C9: for any canvas at least as large as the measured text bounding box,
the bottom-right watermark origin is exactly (canvas_w - text_w - 20,
canvas_h - text_h - 20), with the fixed 20-pixel margin. -/
theorem watermark_bottom_right_origin (canvas_w canvas_h text_w text_h : ℤ)
    (hw : text_w ≤ canvas_w) (hh : text_h ≤ canvas_h) :
    draw_watermark_origin .bottomRight canvas_w canvas_h text_w text_h =
      (canvas_w - text_w - 20, canvas_h - text_h - 20) := rfl

/-- C9 instantiated at a 500x300 canvas with a 120x30 text box. -/
theorem watermark_bottom_right_origin_witness :
    draw_watermark_origin .bottomRight 500 300 120 30 =
      (500 - 120 - 20, 300 - 30 - 20) :=
  watermark_bottom_right_origin 500 300 120 30 (by decide) (by decide)

/-- C5 counterexample: a render call whose scale-bar length is negative and
whose watermark is enabled with empty text does not fail with
ValidationError; the pipeline runs to completion and produces a result. -/
theorem render_no_validation_counterexample :
    create_zoom_figure 100 100 50 50 (fun _ => 9/10) (fun _ => (5, 5)) 3 3 .right 1 50 (0, 0)
        [{ enabled := true, length_um := -5 }] (some { enabled := true, text := "" }) ≠
      .error .ValidationError ∧
    exceptOk (create_zoom_figure 100 100 50 50 (fun _ => 9/10) (fun _ => (5, 5)) 3 3 .right 1 50 (0, 0)
        [{ enabled := true, length_um := -5 }] (some { enabled := true, text := "" })) = true ∧
    ((-5 : ℚ) ≤ 0 ∧ ("" : String).length = 0) := by
  refine ⟨by decide, by decide, by norm_num, rfl⟩

/-- C5 amended: create_zoom_figure performs no structural validation of its
specs: no input whatsoever makes it fail with ValidationError (a
structurally invalid spec such as a non-positive scale-bar length or an
enabled watermark with empty text is drawn as-is), and the render succeeds
exactly when ROI location succeeds. -/
theorem render_never_validation_error :
    ∀ (pano_w pano_h zoom_w zoom_h : ℕ) (conf : ℚ → ℚ) (loc : ℚ → ℕ × ℕ)
      (box_thickness zoom_box_thickness : ℕ) (zoom_position : Direction)
      (zoom_scale : ℚ) (padding : ℕ) (roi_offset : ℤ × ℤ)
      (scale_bars : List ScaleBarConfig) (watermark : Option WatermarkConfig),
    create_zoom_figure pano_w pano_h zoom_w zoom_h conf loc box_thickness
        zoom_box_thickness zoom_position zoom_scale padding roi_offset
        scale_bars watermark ≠ .error .ValidationError ∧
    exceptOk (create_zoom_figure pano_w pano_h zoom_w zoom_h conf loc box_thickness
        zoom_box_thickness zoom_position zoom_scale padding roi_offset
        scale_bars watermark) =
      exceptOk (find_roi_position pano_w pano_h zoom_w zoom_h conf loc) := by
  intro pano_w pano_h zoom_w zoom_h conf loc bt zbt zp zs pad off sbs wm
  unfold create_zoom_figure
  cases hf : find_roi_position pano_w pano_h zoom_w zoom_h conf loc with
  | error e => cases e <;> simp [exceptOk]
  | ok m => simp [exceptOk]

/-- C6: whenever ROI location succeeds with confidence below 0.5, the
orchestrator does not fail: it renders, flags only the non-fatal
low-confidence warning, and returns the result carrying that confidence. -/
theorem low_confidence_nonfatal (pano_w pano_h zoom_w zoom_h : ℕ)
    (conf : ℚ → ℚ) (loc : ℚ → ℕ × ℕ)
    (box_thickness zoom_box_thickness : ℕ) (zoom_position : Direction)
    (zoom_scale : ℚ) (padding : ℕ) (roi_offset : ℤ × ℤ)
    (scale_bars : List ScaleBarConfig) (watermark : Option WatermarkConfig)
    (m : MatchResult)
    (hfind : find_roi_position pano_w pano_h zoom_w zoom_h conf loc = .ok m)
    (hlow : m.confidence < 1/2) :
    renderWarned (create_zoom_figure pano_w pano_h zoom_w zoom_h conf loc
        box_thickness zoom_box_thickness zoom_position zoom_scale padding
        roi_offset scale_bars watermark) = some true ∧
    renderConfidence (create_zoom_figure pano_w pano_h zoom_w zoom_h conf loc
        box_thickness zoom_box_thickness zoom_position zoom_scale padding
        roi_offset scale_bars watermark) = some m.confidence := by
  unfold create_zoom_figure
  rw [hfind]
  refine ⟨?_, rfl⟩
  show some (decide (m.confidence < 1/2)) = some true
  rw [decide_eq_true hlow]

/-- C6 instantiated: confidence 0.3 yields a warned, successful render
reporting 0.3. -/
theorem low_confidence_nonfatal_witness :
    renderWarned (create_zoom_figure 100 100 50 50 (fun _ => 3/10) (fun _ => (7, 9))
        3 3 .right 1 50 (0, 0) [] none) = some true ∧
    renderConfidence (create_zoom_figure 100 100 50 50 (fun _ => 3/10) (fun _ => (7, 9))
        3 3 .right 1 50 (0, 0) [] none) = some ((3 : ℚ)/10) :=
  low_confidence_nonfatal 100 100 50 50 (fun _ => 3/10) (fun _ => (7, 9))
    3 3 .right 1 50 (0, 0) [] none ⟨7, 9, 50, 50, 3/10⟩ (by decide) (by norm_num)

/-- C3 amended, instantiated on the segment from (0,0) to (100,0). -/
theorem dashed_sum_amended_witness :
    draw_dashed_line 0 0 100 0 15 10 100 = some [15, 15, 15, 15] ∧
    ([15, 15, 15, 15] : List ℚ).sum = 60 :=
  ⟨(dashed_sum_amended 0 0 100 0).1, (dashed_sum_amended 0 0 100 0).2.1⟩

/-- C5 amended, instantiated at a concrete invalid spec. -/
theorem render_never_validation_error_witness :
    create_zoom_figure 100 100 50 50 (fun _ => 9/10) (fun _ => (5, 5)) 3 3 .right 1 50 (0, 0)
        [{ enabled := true, length_um := -5 }] (some { enabled := true, text := "" }) ≠
      .error .ValidationError :=
  (render_never_validation_error 100 100 50 50 (fun _ => 9/10) (fun _ => (5, 5)) 3 3 .right 1 50
    (0, 0) [{ enabled := true, length_um := -5 }] (some { enabled := true, text := "" })).1
